import Mathlib

/-!
Shallow embedding of the daily-cli task core (src/main.go): the task record,
the status state machine with elapsed-time settling (updateStatus), the daily
capacity calculator (remainingMinutesToday), the aggregate metrics computed in
listTasksInteractive, task creation (addTaskInteractive), deletion
(deleteTaskInteractive), the list-and-edit step, and startNextPendingTask.
-/

namespace Daily

/-- Task record (src/main.go lines 94-100). Go int and int64 fields are
modelled as unbounded Int: no claim involves machine overflow. -/
structure Task where
  title : String
  estimated : Int
  actual : Int
  status : String
  startedAt : Int
deriving Repr, DecidableEq

/-- Daily capacity constant maxDailyMinutes (line 107). -/
def maxDailyMinutes : Int := 480

/-- One task's update in updateStatus's switch (lines 585-599). Go's `/` on
machine ints truncates toward zero, hence Int.tdiv. -/
def updateStatusTask (now : Int) (status : String) (t : Task) : Task :=
  if status = "started" then
    { t with startedAt := now, status := "started" }
  else if status = "done" ∨ status = "cancelled" ∨ status = "pending" then
    let settled :=
      if t.startedAt ≠ 0 then
        { t with actual := t.actual + (now - t.startedAt).tdiv 60, startedAt := 0 }
      else t
    { settled with status := status }
  else
    { t with status := status }

/-- updateStatus (lines 575-602) acting on a day's task list. The index comes
from promptui and is a non-negative machine int, so the Go guard
`index < 0 || index >= len(tasks)` reduces to the upper bound on a Nat. -/
def updateStatus (now : Int) (index : Nat) (status : String) (tasks : List Task) :
    Except String (List Task) :=
  if h : index < tasks.length then
    Except.ok (tasks.set index (updateStatusTask now status tasks[index]))
  else
    Except.error "invalid task index"

/-- 08:30 local, in seconds since midnight (line 389). -/
def workStartSec : Int := 8 * 3600 + 30 * 60

/-- 12:30 local, in seconds since midnight (line 390). -/
def lunchStartSec : Int := 12 * 3600 + 30 * 60

/-- 13:30 local, in seconds since midnight (line 391). -/
def lunchEndSec : Int := 13 * 3600 + 30 * 60

/-- 17:30 local, in seconds since midnight (line 392). -/
def workEndSec : Int := 17 * 3600 + 30 * 60

/-- remainingMinutesToday (lines 388-411), with `now` given as local seconds
since midnight (the Go code only compares `now` against fixed times of the
same day). Go's int(Duration.Minutes()) yields the truncated whole minutes of
the (non-negative, second-granular) difference. -/
def remainingMinutesToday (now : Int) : Int :=
  if now < workStartSec then 480
  else if workEndSec < now then 0
  else if now < lunchStartSec then (lunchStartSec - now).tdiv 60 + 240
  else if now < lunchEndSec then 240
  else if now < workEndSec then (workEndSec - now).tdiv 60
  else 0

/-- One step of the remaining-work accumulation in listTasksInteractive
(lines 431-443): tasks that are done contribute to achievedWork only; tasks
neither done nor cancelled contribute their clamped outstanding estimate. -/
def remainingWorkStep (acc : Int) (t : Task) : Int :=
  if t.status = "done" then acc
  else if t.status ≠ "done" ∧ t.status ≠ "cancelled" then
    let remainingTime := t.estimated - t.actual
    acc + (if remainingTime < 0 then 0 else remainingTime)
  else acc

/-- remainingWork over a day's tasks (listTasksInteractive, lines 429-443). -/
def remainingWork (tasks : List Task) : Int :=
  tasks.foldl remainingWorkStep 0

/-- Sum of estimates, as accumulated in addTaskInteractive (lines 376-379). -/
def totalEstimated (tasks : List Task) : Int :=
  tasks.foldl (fun acc t => acc + t.estimated) 0

/-- The remaining-work-vs-time ratio of listTasksInteractive (lines 461-468):
ratio starts at remainingWork, is divided by minutesLeft when that is
positive, and is forced to 1.0 otherwise. The single float64 division is
modelled exactly over ℚ. -/
def workloadMetric (tasks : List Task) (now : Int) : ℚ :=
  let minutesLeft := remainingMinutesToday now
  let rw := remainingWork tasks
  if 0 < minutesLeft then (rw : ℚ) / (minutesLeft : ℚ) else 1

/-- addTaskInteractive (lines 340-386) with the prompts replaced by the values
they return: the estimate prompt's Validate callback rejects a non-positive
estimate, while the title prompt has no validation at all. Returns the
capacity-overflow warning flag together with the new day list; the warning is
advisory and the task is appended in either case (lines 380-384). The created
task leaves Actual at Go's zero value. -/
def addTask (tasks : List Task) (title : String) (estimated : Int) :
    Except String (Bool × List Task) :=
  if estimated ≤ 0 then
    Except.error "please enter a valid number of minutes"
  else
    let warn : Bool := decide (maxDailyMinutes < totalEstimated tasks + estimated)
    Except.ok (warn,
      tasks ++ [{ title := title, estimated := estimated, actual := 0,
                  status := "pending", startedAt := 0 }])

/-- deleteTaskInteractive's mutation (line 731):
append(tasks[:index], tasks[index+1:]...). -/
def deleteTask (index : Nat) (tasks : List Task) : List Task :=
  tasks.take index ++ tasks.drop (index + 1)

/-- One edit step of listTasksInteractive (lines 494-541): the selected task's
title, estimate, actual minutes and status are overwritten from the prompt
results; StartedAt is not touched by the edit flow. -/
def editTask (title : String) (estimated actual : Int) (status : String) (t : Task) : Task :=
  { t with title := title, estimated := estimated, actual := actual, status := status }

/-- Outcome reported by startNextPendingTask. -/
inductive StartNextOutcome where
  | alreadyStarted
  | started (index : Nat)
  | noStart
deriving Repr, DecidableEq

/-- The Start/Skip scan of startNextPendingTask (lines 618-639): walk the
tasks in order; each pending task consumes one user choice (true = Start,
false = Skip); an exhausted choice list models the user aborting the prompt
(which returns without mutation). -/
def pickPending : List Task → Nat → List Bool → Option Nat
  | [], _, _ => none
  | t :: ts, i, choices =>
    if t.status = "pending" then
      match choices with
      | [] => none
      | c :: rest => if c then some i else pickPending ts (i + 1) rest
    else pickPending ts (i + 1) choices

/-- startNextPendingTask (lines 604-642): if any task is already started it
reports the policy notice and mutates nothing; otherwise the first pending
task the user accepts is started through updateStatus. -/
def startNextPendingTask (now : Int) (choices : List Bool) (tasks : List Task) :
    StartNextOutcome × List Task :=
  if tasks.any (fun t => t.status = "started") then
    (StartNextOutcome.alreadyStarted, tasks)
  else
    match pickPending tasks 0 choices with
    | some i =>
      match updateStatus now i "started" tasks with
      | Except.ok tasks2 => (StartNextOutcome.started i, tasks2)
      | Except.error _ => (StartNextOutcome.noStart, tasks)
    | none => (StartNextOutcome.noStart, tasks)

/-- The spec's data-model invariant: startedAtEpoch is nonzero iff the status
is started. -/
def taskInvariant (t : Task) : Prop := t.startedAt ≠ 0 ↔ t.status = "started"

instance (t : Task) : Decidable (taskInvariant t) := by
  unfold taskInvariant
  exact inferInstance

/-! Helper lemmas shared by the claim theorems. -/

/-- Writing back the element already at position i leaves a list unchanged. -/
theorem list_set_getElem_self {α : Type} :
    ∀ (l : List α) (i : Nat), (h : i < l.length) → l.set i l[i] = l
  | _ :: _, 0, _ => rfl
  | a :: l, i + 1, h =>
    congrArg (a :: ·) (list_set_getElem_self l i (Nat.lt_of_succ_lt_succ h))

/-- updateStatusTask on a running task and a canonical non-started target
status settles the truncated elapsed minutes, clears the timer and writes the
status. -/
theorem updateStatusTask_settle (t : Task) (now : Int) (s : String)
    (hs : s = "done" ∨ s = "cancelled" ∨ s = "pending") (hrun : t.startedAt ≠ 0) :
    updateStatusTask now s t =
      { t with actual := t.actual + (now - t.startedAt).tdiv 60,
               startedAt := 0, status := s } := by
  have hns : s ≠ "started" := by rcases hs with rfl | rfl | rfl <;> decide
  simp only [updateStatusTask, if_neg hns, if_pos hs, if_pos hrun]

/-- Rewriting a task's status to the value it already has changes nothing. -/
theorem task_set_status_self (t : Task) (s : String) (h : t.status = s) :
    { t with status := s } = t := by
  cases t
  simp_all

/-- updateStatusTask on a task whose timer is already cleared and a canonical
non-started target status only writes the status. -/
theorem updateStatusTask_noSettle (t : Task) (now : Int) (s : String)
    (hs : s = "done" ∨ s = "cancelled" ∨ s = "pending") (hrun : t.startedAt = 0) :
    updateStatusTask now s t = { t with status := s } := by
  have hns : s ≠ "started" := by rcases hs with rfl | rfl | rfl <;> decide
  simp only [updateStatusTask, if_neg hns, if_pos hs,
    if_neg (by simp [hrun] : ¬ t.startedAt ≠ 0)]

/-- Generalized foldl form of the remaining-work accumulation. -/
theorem remainingWork_foldl (l : List Task) (acc : Int) :
    l.foldl remainingWorkStep acc =
      acc + ((l.filter fun t =>
          decide (t.status ≠ "done" ∧ t.status ≠ "cancelled")).map
        (fun t => max 0 (t.estimated - t.actual))).sum := by
  induction l generalizing acc with
  | nil => simp
  | cons t ts ih =>
    simp only [List.foldl_cons, ih, List.filter_cons]
    by_cases hd : t.status = "done"
    · simp [remainingWorkStep, hd]
    · by_cases hc : t.status = "cancelled"
      · simp [remainingWorkStep, hd, hc]
      · have hmax : (if t.estimated - t.actual < 0 then 0 else t.estimated - t.actual) =
            max 0 (t.estimated - t.actual) := by
          rcases lt_or_le (t.estimated - t.actual) 0 with hlt | hle
          · simp [hlt, max_eq_left hlt.le]
          · simp [not_lt.mpr hle, max_eq_right hle]
        simp only [remainingWorkStep, if_neg hd, if_pos (And.intro hd hc), hmax]
        simp [hd, hc]
        ring

/-! The claim theorems. -/

/-- Claim C1: a transition out of a running state (startedAtEpoch nonzero) to
done, cancelled or pending first settles floor((now - startedAtEpoch) / 60)
minutes into actualMinutes, then clears startedAtEpoch and writes the status;
and a started transition followed immediately by a done transition at the same
instant increases actualMinutes by 0 and leaves startedAtEpoch at 0. The
monotone-clock hypothesis records that startedAtEpoch was read from the same
clock earlier, where Go's truncating division coincides with floor. -/
theorem claim1_settle (tasks : List Task) (i : Nat) (h : i < tasks.length)
    (now : Int) (s : String)
    (hs : s = "done" ∨ s = "cancelled" ∨ s = "pending")
    (hrun : tasks[i].startedAt ≠ 0) (hmono : tasks[i].startedAt ≤ now) :
    updateStatus now i s tasks =
      Except.ok (tasks.set i
        { tasks[i] with
          actual := tasks[i].actual + (now - tasks[i].startedAt).fdiv 60,
          startedAt := 0, status := s }) ∧
    ∀ tasks2, updateStatus now i "started" tasks = Except.ok tasks2 →
      updateStatus now i "done" tasks2 =
        Except.ok (tasks.set i { tasks[i] with status := "done", startedAt := 0 }) := by
  constructor
  · simp only [updateStatus, dif_pos h, updateStatusTask_settle tasks[i] now s hs hrun,
      Int.fdiv_eq_tdiv (by omega : (0 : Int) ≤ now - tasks[i].startedAt)
        (by norm_num : (0 : Int) ≤ 60)]
  · intro tasks2 h2
    have hstart : updateStatus now i "started" tasks =
        Except.ok (tasks.set i
          { tasks[i] with startedAt := now, status := "started" }) := by
      simp [updateStatus, dif_pos h, updateStatusTask]
    rw [hstart] at h2
    cases h2
    have hlen2 : i < (tasks.set i
        { tasks[i] with startedAt := now, status := "started" }).length := by
      simpa using h
    have hget : (tasks.set i
        { tasks[i] with startedAt := now, status := "started" })[i] =
        { tasks[i] with startedAt := now, status := "started" } := by
      simp
    simp only [updateStatus, dif_pos hlen2, hget]
    by_cases hz : now = 0
    · rw [updateStatusTask_noSettle _ now "done" (Or.inl rfl) (by simp [hz])]
      simp [List.set_set, hz]
    · rw [updateStatusTask_settle _ now "done" (Or.inl rfl) (by simpa using hz)]
      simp [List.set_set]

/-- Claim C1 witness: settling a task started at epoch 70 and finished at
epoch 200 adds floor(130 / 60) = 2 minutes and clears the timer. -/
theorem claim1_settle_witness :
    updateStatus 200 0 "done" [⟨"a", 30, 5, "started", 70⟩] =
      Except.ok [⟨"a", 30, 7, "done", 0⟩] := by
  have h := (claim1_settle [⟨"a", 30, 5, "started", 70⟩] 0 (by decide) 200 "done"
    (Or.inl rfl) (by decide) (by decide)).1
  rw [h]
  rfl

/-- Claim C2 counterexample: the claim is false on the code. Assigning the
unrecognized status "blocked" to a running task keeps startedAtEpoch == 100
while the status is no longer started, and the list-and-edit flow never
touches startedAtEpoch, so editing a running task's status to pending also
leaves startedAtEpoch == 100; both violate the invariant. -/
theorem claim2_counterexample :
    updateStatus 200 0 "blocked" [⟨"a", 30, 0, "started", 100⟩] =
      Except.ok [⟨"a", 30, 0, "blocked", 100⟩] ∧
    ¬ taskInvariant ⟨"a", 30, 0, "blocked", 100⟩ ∧
    editTask "a" 30 0 "pending" ⟨"a", 30, 0, "started", 100⟩ =
      ⟨"a", 30, 0, "pending", 100⟩ ∧
    ¬ taskInvariant ⟨"a", 30, 0, "pending", 100⟩ :=
  ⟨rfl, by decide, rfl, by decide⟩

/-- Claim C2 amended: Transition with one of the four canonical status values
(at a nonzero clock), task creation, and task deletion each preserve the
invariant that startedAtEpoch is nonzero iff the status is started; assigning
an unrecognized status and the list-and-edit flow do not preserve it. -/
theorem claim2_amended (tasks : List Task) (now : Int) (i : Nat) (s : String)
    (hnow : now ≠ 0)
    (hs : s = "started" ∨ s = "done" ∨ s = "cancelled" ∨ s = "pending")
    (hinv : ∀ t ∈ tasks, taskInvariant t) :
    (∀ tasks2, updateStatus now i s tasks = Except.ok tasks2 →
      ∀ t ∈ tasks2, taskInvariant t) ∧
    (∀ title est warn tasks2, addTask tasks title est = Except.ok (warn, tasks2) →
      ∀ t ∈ tasks2, taskInvariant t) ∧
    (∀ t ∈ deleteTask i tasks, taskInvariant t) := by
  refine ⟨?_, ?_, ?_⟩
  · intro tasks2 h2 t ht
    have hlen : i < tasks.length := by
      by_contra hlen
      simp [updateStatus, dif_neg hlen] at h2
    rw [updateStatus, dif_pos hlen] at h2
    cases h2
    rcases List.mem_or_eq_of_mem_set ht with hmem | rfl
    · exact hinv t hmem
    · rcases hs with rfl | hs'
      · simp [updateStatusTask, taskInvariant, hnow]
      · by_cases hrun : tasks[i].startedAt ≠ 0
        · rw [updateStatusTask_settle _ now s hs' hrun]
          rcases hs' with rfl | rfl | rfl <;> simp [taskInvariant]
        · rw [updateStatusTask_noSettle _ now s hs' (by simpa using hrun)]
          rcases hs' with rfl | rfl | rfl <;>
            simp [taskInvariant, by simpa using hrun]
  · intro title est warn tasks2 h2 t ht
    by_cases hest : est ≤ 0
    · simp [addTask, if_pos hest] at h2
    · rw [addTask, if_neg hest] at h2
      cases h2
      rcases List.mem_append.mp ht with hmem | hmem
      · exact hinv t hmem
      · rcases List.mem_singleton.mp hmem with rfl
        simp [taskInvariant]
  · intro t ht
    rcases List.mem_append.mp ht with hmem | hmem
    · exact hinv t (List.mem_of_mem_take hmem)
    · exact hinv t (List.mem_of_mem_drop hmem)

/-- Claim C2 amended witness: a canonical started transition at clock 50 on a
pending task yields a task satisfying the invariant. -/
theorem claim2_amended_witness : taskInvariant ⟨"a", 30, 0, "started", 50⟩ :=
  (claim2_amended [⟨"a", 30, 0, "pending", 0⟩] 50 0 "started" (by decide)
      (Or.inl rfl) (by decide)).1
    [⟨"a", 30, 0, "started", 50⟩] rfl ⟨"a", 30, 0, "started", 50⟩ (by decide)

/-- Claim C3: remainingMinutesToday returns 480 before 08:30, 0 after 17:30,
the whole minutes until 12:30 plus 240 in [08:30, 12:30), exactly 240 in
[12:30, 13:30), and the whole minutes until 17:30 in [13:30, 17:30]; in
particular 480 at 08:00, 270 at 12:00, 240 at 13:00, 150 at 15:00 and 0 at
18:00 (times as seconds since local midnight). -/
theorem claim3_remainingMinutes (now : Int) :
    (now < workStartSec → remainingMinutesToday now = 480) ∧
    (workEndSec < now → remainingMinutesToday now = 0) ∧
    (workStartSec ≤ now → now < lunchStartSec →
      remainingMinutesToday now = (lunchStartSec - now).fdiv 60 + 240) ∧
    (lunchStartSec ≤ now → now < lunchEndSec → remainingMinutesToday now = 240) ∧
    (lunchEndSec ≤ now → now ≤ workEndSec →
      remainingMinutesToday now = (workEndSec - now).fdiv 60) ∧
    remainingMinutesToday 28800 = 480 ∧
    remainingMinutesToday 43200 = 270 ∧
    remainingMinutesToday 46800 = 240 ∧
    remainingMinutesToday 54000 = 150 ∧
    remainingMinutesToday 64800 = 0 := by
  have hc : workStartSec = 30600 ∧ lunchStartSec = 45000 ∧
      lunchEndSec = 48600 ∧ workEndSec = 63000 := by
    refine ⟨?_, ?_, ?_, ?_⟩ <;> decide
  obtain ⟨hws, hls, hle, hwe⟩ := hc
  refine ⟨?_, ?_, ?_, ?_, ?_, by decide, by decide, by decide, by decide, by decide⟩
  · intro h1
    rw [remainingMinutesToday, if_pos h1]
  · intro h1
    rw [remainingMinutesToday, if_neg (by rw [hws] at *; omega), if_pos h1]
  · intro h1 h2
    rw [remainingMinutesToday, if_neg (by omega), if_neg (by rw [hls, hwe] at *; omega),
      if_pos h2,
      Int.fdiv_eq_tdiv (by omega : (0 : Int) ≤ lunchStartSec - now)
        (by norm_num : (0 : Int) ≤ 60)]
  · intro h1 h2
    rw [remainingMinutesToday, if_neg (by rw [hws, hls] at *; omega),
      if_neg (by rw [hle, hwe] at *; omega), if_neg (by omega), if_pos h2]
  · intro h1 h2
    have hfd : (workEndSec - now).fdiv 60 = (workEndSec - now).tdiv 60 :=
      Int.fdiv_eq_tdiv (by omega) (by norm_num)
    rcases eq_or_lt_of_le h2 with rfl | h3
    · rw [remainingMinutesToday, if_neg (by rw [hws] at *; omega), if_neg (by omega),
        if_neg (by rw [hls] at *; omega), if_neg (by rw [hle] at *; omega),
        if_neg (by omega), hfd]
      simp
    · rw [remainingMinutesToday, if_neg (by rw [hws, hwe] at *; omega),
        if_neg (by omega), if_neg (by rw [hls, hle] at *; omega),
        if_neg (by rw [hle] at *; omega), if_pos h3, hfd]

/-- Claim C3 witness: at 12:00 (43200 seconds) the theorem's morning branch
gives 1800 seconds until 12:30, i.e. 30 whole minutes, plus the 240-minute
afternoon session. -/
theorem claim3_remainingMinutes_witness :
    remainingMinutesToday 43200 = (lunchStartSec - 43200).fdiv 60 + 240 :=
  (claim3_remainingMinutes 43200).2.2.1 (by decide) (by decide)

/-- Claim C4: remainingWork is the sum of max(0, estimatedMinutes -
actualMinutes) over tasks neither done nor cancelled, and the workload ratio
is remainingWork / remainingMinutes when remainingMinutes is positive and
exactly 1 when it is zero. -/
theorem claim4_metrics (tasks : List Task) (now : Int) :
    remainingWork tasks =
      ((tasks.filter fun t =>
          decide (t.status ≠ "done" ∧ t.status ≠ "cancelled")).map
        (fun t => max 0 (t.estimated - t.actual))).sum ∧
    (0 < remainingMinutesToday now →
      workloadMetric tasks now =
        (remainingWork tasks : ℚ) / (remainingMinutesToday now : ℚ)) ∧
    (remainingMinutesToday now = 0 → workloadMetric tasks now = 1) := by
  refine ⟨?_, ?_, ?_⟩
  · simpa using remainingWork_foldl tasks 0
  · intro hpos
    rw [workloadMetric]
    simp only [if_pos hpos]
  · intro hz
    rw [workloadMetric]
    simp only [hz]
    norm_num

/-- Claim C4 witness: one pending task with a 100-minute estimate at 18:00
local (no minutes left) gives remainingWork 100 and ratio exactly 1. -/
theorem claim4_metrics_witness :
    remainingWork [⟨"a", 100, 0, "pending", 0⟩] = 100 ∧
    remainingMinutesToday 64800 = 0 ∧
    workloadMetric [⟨"a", 100, 0, "pending", 0⟩] 64800 = 1 :=
  ⟨by decide, by decide,
    (claim4_metrics [⟨"a", 100, 0, "pending", 0⟩] 64800).2.2 (by decide)⟩

/-- Claim C5 counterexample: creating a task with an empty title and a valid
estimate does not fail — the title prompt of addTaskInteractive has no
validation, so the task is created with an empty title. -/
theorem claim5_counterexample :
    addTask [] "" 30 =
      Except.ok (false,
        [{ title := "", estimated := 30, actual := 0,
           status := "pending", startedAt := 0 }]) := rfl

/-- Claim C5 amended: CreateTask fails with a ValidationError only when
estimatedMinutes <= 0; the title is not validated (an empty title is
accepted). Every accepted (title, estimate) yields a task with status
pending, actualMinutes 0 and startedAtEpoch 0, appended to the day. -/
theorem claim5_amended (tasks : List Task) (title : String) (est : Int) :
    (0 < est → addTask tasks title est =
      Except.ok (decide (maxDailyMinutes < totalEstimated tasks + est),
        tasks ++ [{ title := title, estimated := est, actual := 0,
                    status := "pending", startedAt := 0 }])) ∧
    (est ≤ 0 → addTask tasks title est =
      Except.error "please enter a valid number of minutes") := by
  constructor
  · intro h
    rw [addTask, if_neg (by omega : ¬ est ≤ 0)]
  · intro h
    rw [addTask, if_pos h]

/-- Claim C5 amended witness: a nonempty title and a 30-minute estimate on an
empty day yield the pending task with zeroed actual time and timer. -/
theorem claim5_amended_witness :
    (0 : Int) < 30 ∧
    addTask [] "x" 30 =
      Except.ok (decide (maxDailyMinutes < totalEstimated [] + 30),
        [] ++ [{ title := "x", estimated := 30, actual := 0,
                 status := "pending", startedAt := 0 }]) :=
  ⟨by norm_num, (claim5_amended [] "x" 30).1 (by norm_num)⟩

/-- Claim C6: startNextPendingTask on a day where some task is already
started reports the already-running notice and leaves the task list
unchanged, whatever other pending tasks and user choices are present. -/
theorem claim6_alreadyRunning (tasks : List Task) (now : Int) (choices : List Bool)
    (h : ∃ t ∈ tasks, t.status = "started") :
    startNextPendingTask now choices tasks =
      (StartNextOutcome.alreadyStarted, tasks) := by
  rw [startNextPendingTask, if_pos]
  rcases h with ⟨t, hmem, hst⟩
  exact List.any_eq_true.mpr ⟨t, hmem, by simp [hst]⟩

/-- Claim C6 witness: with a started first task and a pending second task the
scan refuses and returns the day unchanged even though the user would accept
the next pending task. -/
theorem claim6_alreadyRunning_witness :
    startNextPendingTask 5 [true]
        [⟨"a", 1, 0, "started", 3⟩, ⟨"b", 2, 0, "pending", 0⟩] =
      (StartNextOutcome.alreadyStarted,
        [⟨"a", 1, 0, "started", 3⟩, ⟨"b", 2, 0, "pending", 0⟩]) :=
  claim6_alreadyRunning _ 5 [true]
    ⟨⟨"a", 1, 0, "started", 3⟩, by decide, rfl⟩

/-- Claim C7: a second done transition in a row is a complete no-op — the
first one cleared startedAtEpoch, so no settling is repeated and actualMinutes
is unchanged after the second call. -/
theorem claim7_no_double_settle (tasks t1 t2 : List Task) (i : Nat) (now1 now2 : Int)
    (h1 : updateStatus now1 i "done" tasks = Except.ok t1)
    (h2 : updateStatus now2 i "done" t1 = Except.ok t2) :
    t2 = t1 ∧ t2.map Task.actual = t1.map Task.actual := by
  have hlen : i < tasks.length := by
    by_contra hl
    rw [updateStatus, dif_neg hl] at h1
    exact Except.noConfusion h1
  rw [updateStatus, dif_pos hlen] at h1
  cases h1
  have hz : (updateStatusTask now1 "done" tasks[i]).startedAt = 0 ∧
      (updateStatusTask now1 "done" tasks[i]).status = "done" := by
    by_cases hr : tasks[i].startedAt ≠ 0
    · rw [updateStatusTask_settle _ now1 "done" (Or.inl rfl) hr]
      exact ⟨rfl, rfl⟩
    · rw [updateStatusTask_noSettle _ now1 "done" (Or.inl rfl) (by simpa using hr)]
      exact ⟨by simpa using hr, rfl⟩
  have hlen1 : i < (tasks.set i (updateStatusTask now1 "done" tasks[i])).length := by
    simpa using hlen
  have hget : (tasks.set i (updateStatusTask now1 "done" tasks[i]))[i] =
      updateStatusTask now1 "done" tasks[i] := by
    simp
  rw [updateStatus, dif_pos hlen1, hget,
    updateStatusTask_noSettle _ now2 "done" (Or.inl rfl) hz.1] at h2
  rw [task_set_status_self _ "done" hz.2, List.set_set] at h2
  cases h2
  exact ⟨rfl, rfl⟩

/-- Claim C7 witness: finishing at clock 200 a task started at epoch 70
settles 2 minutes (actual 5 to 7); finishing it again at clock 500 changes
nothing — both transitions are discharged by computation. -/
theorem claim7_no_double_settle_witness :
    [(⟨"a", 30, 7, "done", 0⟩ : Task)] = [⟨"a", 30, 7, "done", 0⟩] ∧
    [(⟨"a", 30, 7, "done", 0⟩ : Task)].map Task.actual =
      [(⟨"a", 30, 7, "done", 0⟩ : Task)].map Task.actual :=
  claim7_no_double_settle [⟨"a", 30, 5, "started", 70⟩] [⟨"a", 30, 7, "done", 0⟩]
    [⟨"a", 30, 7, "done", 0⟩] 0 200 500 rfl rfl

/-- Claim C8: creating a task whose estimate pushes the day's summed
estimates past the 480-minute capacity still succeeds and appends the task;
the overflow only raises the warning flag. -/
theorem claim8_capacity (tasks : List Task) (title : String) (est : Int) (h : 0 < est) :
    addTask tasks title est =
      Except.ok (decide (maxDailyMinutes < totalEstimated tasks + est),
        tasks ++ [{ title := title, estimated := est, actual := 0,
                    status := "pending", startedAt := 0 }]) ∧
    ({ title := title, estimated := est, actual := 0,
       status := "pending", startedAt := 0 } : Task) ∈
      tasks ++ [{ title := title, estimated := est, actual := 0,
                  status := "pending", startedAt := 0 }] := by
  refine ⟨?_, by simp⟩
  rw [addTask, if_neg (by omega : ¬ est ≤ 0)]

/-- Claim C8 witness: a 200-minute task added to a day already holding 400
planned minutes overflows 480, yet the call succeeds with the warning flag set
and the task appended. -/
theorem claim8_capacity_witness :
    addTask [⟨"a", 400, 0, "pending", 0⟩] "b" 200 =
      Except.ok (true,
        [⟨"a", 400, 0, "pending", 0⟩, ⟨"b", 200, 0, "pending", 0⟩]) := by
  have h := (claim8_capacity [⟨"a", 400, 0, "pending", 0⟩] "b" 200 (by norm_num)).1
  rw [h]
  rfl

/-- Claim C9: deleting an in-range index removes exactly that task, keeps the
prefix in place, shifts later tasks down by one (preserving their order and
all their fields, so no settling happens), and deleting index 1 of a 3-task
sequence leaves the original index-0 task at 0 and the original index-2 task
at 1. -/
theorem claim9_delete (tasks : List Task) (i : Nat) (h : i < tasks.length) :
    (deleteTask i tasks).length = tasks.length - 1 ∧
    (∀ j, j < i → (deleteTask i tasks)[j]? = tasks[j]?) ∧
    (∀ j, i ≤ j → (deleteTask i tasks)[j]? = tasks[j + 1]?) ∧
    (∀ t0 t1 t2 : Task, deleteTask 1 [t0, t1, t2] = [t0, t2]) := by
  have hlt : (tasks.take i).length = i := List.length_take_of_le h.le
  refine ⟨?_, ?_, ?_, fun t0 t1 t2 => rfl⟩
  · rw [deleteTask, List.length_append, hlt, List.length_drop]
    omega
  · intro j hj
    rw [deleteTask, List.getElem?_append_left (by omega), List.getElem?_take_of_lt hj]
  · intro j hj
    rw [deleteTask, List.getElem?_append_right (by omega), hlt, List.getElem?_drop]
    congr 1
    omega

/-- Claim C9 witness: deleting the running middle task of a 3-task day keeps
the outer two tasks, order preserved and fields untouched. -/
theorem claim9_delete_witness :
    deleteTask 1 [⟨"a", 1, 0, "pending", 0⟩, ⟨"b", 2, 4, "started", 9⟩,
        ⟨"c", 3, 0, "done", 0⟩] =
      [⟨"a", 1, 0, "pending", 0⟩, ⟨"c", 3, 0, "done", 0⟩] :=
  (claim9_delete [⟨"a", 1, 0, "pending", 0⟩, ⟨"b", 2, 4, "started", 9⟩,
      ⟨"c", 3, 0, "done", 0⟩] 1 (by decide)).2.2.2
    ⟨"a", 1, 0, "pending", 0⟩ ⟨"b", 2, 4, "started", 9⟩ ⟨"c", 3, 0, "done", 0⟩

/-- Claim C10: a started transition on a task that is already started
overwrites startedAtEpoch with the current clock without settling — the
previous span is lost and actualMinutes, title and estimate are unchanged. -/
theorem claim10_restart (tasks : List Task) (i : Nat) (h : i < tasks.length)
    (now : Int) (_hs : tasks[i].status = "started") :
    updateStatus now i "started" tasks =
      Except.ok (tasks.set i
        { tasks[i] with startedAt := now, status := "started" }) ∧
    ({ tasks[i] with startedAt := now, status := "started" }).actual =
      tasks[i].actual ∧
    ({ tasks[i] with startedAt := now, status := "started" }).title =
      tasks[i].title ∧
    ({ tasks[i] with startedAt := now, status := "started" }).estimated =
      tasks[i].estimated := by
  refine ⟨?_, rfl, rfl, rfl⟩
  simp [updateStatus, dif_pos h, updateStatusTask]

/-- Claim C10 witness: restarting a task started at epoch 70 with 5 settled
minutes at clock 200 overwrites the timer to 200 and keeps actual at 5 — the
130 unsettled seconds are lost. -/
theorem claim10_restart_witness :
    updateStatus 200 0 "started" [⟨"a", 30, 5, "started", 70⟩] =
      Except.ok [⟨"a", 30, 5, "started", 200⟩] := by
  have h := (claim10_restart [⟨"a", 30, 5, "started", 70⟩] 0 (by decide) 200 rfl).1
  rw [h]
  rfl

end Daily
